import Mathlib

/-!
Shallow embedding of `src/financial_crm_system.py` (Financial CRM System with
WhatsApp Integration).

Modelling conventions:
* SQLite rows become Lean structures; the three tables live in a `DB` record
  as lists together with the AUTOINCREMENT counters.
* Python `float` amounts are modelled as exact rationals (`Rat`).
* ISO-8601 timestamp strings (compared lexicographically by SQLite, which
  agrees with chronological order) are modelled as integers; `datetime.now()`
  becomes an explicit `now : Int` parameter, and `timedelta(days=days)`
  subtracts `days` in the same time unit.
* Python dicts passed to the service become structures of `Option` fields
  (`none` = key absent); `dict.get(k, d)` becomes `Option.getD`.
* The network call of `requests.post` is an oracle parameter `NetOutcome`:
  either the provider answers (the JSON body of the response) or the
  transport raises an exception with a message.
* Python result dicts `{"success": ..., ...}` become `OpResult` / `SendResult`
  records with `success`, an optional payload and an optional error string.
-/

namespace CRM

/-- Row of the `customers` table (dataclass `Customer`). -/
structure Customer where
  id : Nat
  name : String
  phone : String
  email : String
  whatsapp_id : String
  created_at : Int
  status : String
  credit_limit : Rat
  current_balance : Rat
  deriving Repr, DecidableEq

/-- Row of the `transactions` table (dataclass `Transaction`). -/
structure Transaction where
  id : Nat
  customer_id : Nat
  amount : Rat
  transaction_type : String
  description : String
  status : String
  created_at : Int
  processed_at : Option Int
  deriving Repr, DecidableEq

/-- Row of the `whatsapp_messages` table (dataclass `WhatsAppMessage`). -/
structure WhatsAppMessage where
  id : Nat
  customer_id : Nat
  message_type : String
  content : String
  direction : String
  status : String
  created_at : Int
  deriving Repr, DecidableEq

/-- The whole SQLite database: the three tables plus the AUTOINCREMENT
counters for their primary keys. -/
structure DB where
  customers : List Customer
  transactions : List Transaction
  whatsapp_messages : List WhatsAppMessage
  next_customer_id : Nat
  next_transaction_id : Nat
  next_message_id : Nat
  deriving Repr, DecidableEq

/-- The `customer_data` dict accepted by `create_customer`.  Every key the
boundary layer could send is present as an `Option`; `create_customer` only
ever reads `name`, `phone`, `email`, `whatsapp_id` and `credit_limit`. -/
structure CustomerData where
  name : Option String := none
  phone : Option String := none
  email : Option String := none
  whatsapp_id : Option String := none
  credit_limit : Option Rat := none
  status : Option String := none
  current_balance : Option Rat := none
  created_at : Option Int := none
  deriving Repr, DecidableEq

/-- The `transaction_data` dict accepted by `create_transaction`. -/
structure TransactionData where
  customer_id : Option Nat := none
  amount : Option Rat := none
  transaction_type : Option String := none
  description : Option String := none
  deriving Repr, DecidableEq

/-- Uniform result dict of a Domain Service operation:
`{"success": bool, <payload>?, "error"?: str}`. -/
structure OpResult (α : Type) where
  success : Bool
  value : Option α := none
  error : Option String := none
  deriving Repr, DecidableEq

/-- Result dict of the WhatsApp gateway and of the message-sending service
operations: `{"success": bool, "data"?: ..., "error"?: str}`. -/
structure SendResult where
  success : Bool
  data : Option String := none
  error : Option String := none
  deriving Repr, DecidableEq

/-- Environment of `WhatsAppAPI.__init__`: the three `WHATSAPP_*` environment
variables, `""` when unset (`os.getenv(..., '')`). -/
structure WhatsAppConfig where
  api_url : String
  access_token : String
  phone_number_id : String
  deriving Repr, DecidableEq

/-- Outcome of the one `requests.post` network call: either a response whose
`.json()` body is returned, or a raised transport exception. -/
inductive NetOutcome where
  | response (body : String)
  | exn (msg : String)
  deriving Repr, DecidableEq

/-- Insertion sort step for `ORDER BY created_at DESC`. -/
def insertByDesc {α : Type} (key : α → Int) (x : α) : List α → List α
  | [] => [x]
  | y :: ys => if key y < key x then x :: y :: ys else y :: insertByDesc key x ys

/-- `ORDER BY key DESC` over a list of rows. -/
def sortByDesc {α : Type} (key : α → Int) : List α → List α
  | [] => []
  | x :: xs => insertByDesc key x (sortByDesc key xs)

/-- `FinancialCRMSystem.create_customer`.  Builds the row from the input dict
(`dict.get` defaults), stamps `created_at` with the server clock, and inserts.
The INSERT names only `name, phone, email, whatsapp_id, created_at,
credit_limit`, so the table defaults `status='active'` and
`current_balance=0.0` apply.  The UNIQUE constraint on `phone` is the one
internal failure; sqlite raises and the `except` clause maps it to
`{"success": False, "error": str(e)}`. -/
def create_customer (db : DB) (customer_data : CustomerData) (now : Int) :
    OpResult Nat × DB :=
  let customer : Customer :=
    { id := db.next_customer_id
      name := customer_data.name.getD ""
      phone := customer_data.phone.getD ""
      email := customer_data.email.getD ""
      whatsapp_id := customer_data.whatsapp_id.getD ""
      created_at := now
      status := "active"
      credit_limit := customer_data.credit_limit.getD 0
      current_balance := 0 }
  if db.customers.any (fun c => decide (c.phone = customer.phone)) then
    ({ success := false, error := some "UNIQUE constraint failed: customers.phone" }, db)
  else
    ({ success := true, value := some customer.id },
     { db with
         customers := db.customers ++ [customer]
         next_customer_id := db.next_customer_id + 1 })

/-- `FinancialCRMSystem.get_customer`: `SELECT * FROM customers WHERE id = ?`,
first row if any, else the "Customer not found" error. -/
def get_customer (db : DB) (customer_id : Nat) : OpResult Customer :=
  match db.customers.find? (fun c => decide (c.id = customer_id)) with
  | some c => { success := true, value := some c }
  | none => { success := false, error := some "Customer not found" }

/-- `FinancialCRMSystem.get_customers`: all customers or, when the `status`
argument is truthy (Python `if status:` — `None` and `""` are falsy), only
those with that status; `ORDER BY created_at DESC`. -/
def get_customers (db : DB) (status : Option String := none) :
    OpResult (List Customer) :=
  let rows :=
    match status with
    | some s =>
      if s = "" then sortByDesc (fun c => c.created_at) db.customers
      else
        sortByDesc (fun c => c.created_at)
          (db.customers.filter (fun c => decide (c.status = s)))
    | none => sortByDesc (fun c => c.created_at) db.customers
  { success := true, value := some rows }

/-- `FinancialCRMSystem.update_customer_balance`: chooses one of three UPDATE
statements by `operation` — `"add"` increments, `"subtract"` decrements, and
any other string overwrites `current_balance` with `amount` — then runs it
over the rows with the given id. -/
def update_customer_balance (db : DB) (customer_id : Nat) (amount : Rat)
    (operation : String := "add") : OpResult Unit × DB :=
  let newBalance : Rat → Rat :=
    if operation = "add" then fun b => b + amount
    else if operation = "subtract" then fun b => b - amount
    else fun _ => amount
  ({ success := true },
   { db with
       customers := db.customers.map (fun c =>
         if c.id = customer_id then
           { c with current_balance := newBalance c.current_balance }
         else c) })

/-- `FinancialCRMSystem.create_transaction`.  `transaction_data.get('customer_id')`
is `None` when the key is absent; the INSERT then violates the NOT NULL
constraint on `transactions.customer_id` and the exception is caught.
Otherwise the row is inserted (table defaults `status='pending'`,
`processed_at=NULL`; sqlite does not enforce the foreign key by default, so no
existence check happens) and then the balance side effect runs: type
`"payment"` adds the amount, `"charge"` subtracts it, anything else leaves the
balance alone. -/
def create_transaction (db : DB) (transaction_data : TransactionData) (now : Int) :
    OpResult Nat × DB :=
  match transaction_data.customer_id with
  | none =>
    ({ success := false,
       error := some "NOT NULL constraint failed: transactions.customer_id" }, db)
  | some cid =>
    let t : Transaction :=
      { id := db.next_transaction_id
        customer_id := cid
        amount := transaction_data.amount.getD 0
        transaction_type := transaction_data.transaction_type.getD ""
        description := transaction_data.description.getD ""
        status := "pending"
        created_at := now
        processed_at := none }
    let db1 : DB :=
      { db with
          transactions := db.transactions ++ [t]
          next_transaction_id := db.next_transaction_id + 1 }
    let db2 : DB :=
      if t.transaction_type = "payment" then
        (update_customer_balance db1 cid t.amount "add").2
      else if t.transaction_type = "charge" then
        (update_customer_balance db1 cid t.amount "subtract").2
      else db1
    ({ success := true, value := some t.id }, db2)

/-- `FinancialCRMSystem.get_customer_transactions`: the customer's
transactions, `ORDER BY created_at DESC LIMIT ?`. -/
def get_customer_transactions (db : DB) (customer_id : Nat) (limit : Nat := 50) :
    OpResult (List Transaction) :=
  { success := true
    value := some
      ((sortByDesc (fun t => t.created_at)
        (db.transactions.filter (fun t => decide (t.customer_id = customer_id)))).take limit) }

/-- Summary payload returned by `get_financial_summary`. -/
structure FinancialSummary where
  total_revenue : Rat
  total_charges : Rat
  net_amount : Rat
  transaction_count : Nat
  active_customers : Nat
  period_days : Int
  deriving Repr, DecidableEq

/-- SQL `SELECT SUM(amount) FROM ... WHERE p`: `NULL` (`none`) when no row
matches, otherwise the sum of the matching amounts. -/
def sqlSumAmount (rows : List Transaction) : Option Rat :=
  match rows with
  | [] => none
  | _ => some ((rows.map (fun t => t.amount)).sum)

/-- Python `x or 0.0` applied to a nullable SQL aggregate: `None` and `0.0`
are falsy and give `0.0`; any other value passes through. -/
def pyOrZero (v : Option Rat) : Rat :=
  match v with
  | none => 0
  | some x => if x = 0 then 0 else x

/-- `FinancialCRMSystem.get_financial_summary`: over transactions with
`created_at >= now - days`, the payment sum (`or 0.0`), the charge sum
(`or 0.0`), their difference, the windowed transaction count, plus the
unwindowed count of customers with status `'active'`. -/
def get_financial_summary (db : DB) (now : Int) (days : Int := 30) :
    OpResult FinancialSummary :=
  let since_date := now - days
  let total_revenue := pyOrZero (sqlSumAmount (db.transactions.filter
    (fun t => decide (t.transaction_type = "payment") && decide (since_date ≤ t.created_at))))
  let total_charges := pyOrZero (sqlSumAmount (db.transactions.filter
    (fun t => decide (t.transaction_type = "charge") && decide (since_date ≤ t.created_at))))
  let transaction_count :=
    (db.transactions.filter (fun t => decide (since_date ≤ t.created_at))).length
  let customer_count :=
    (db.customers.filter (fun c => decide (c.status = "active"))).length
  { success := true
    value := some
      { total_revenue := total_revenue
        total_charges := total_charges
        net_amount := total_revenue - total_charges
        transaction_count := transaction_count
        active_customers := customer_count
        period_days := days } }

/-- `WhatsAppAPI.send_message`.  With no endpoint URL or no access token
(Python `if not self.api_url or not self.access_token:`) it reports the
configuration error without touching the network; otherwise the result of the
one POST is wrapped as success, and a raised transport exception becomes
`{"success": False, "error": str(e)}`. -/
def send_message (api : WhatsAppConfig) (net : NetOutcome) (dest : String)
    (message : String) : SendResult :=
  if api.api_url = "" ∨ api.access_token = "" then
    { success := false, error := some "WhatsApp API not configured" }
  else
    match net with
    | .response body => { success := true, data := some body }
    | .exn e => { success := false, error := some e }

/-- `FinancialCRMSystem.send_whatsapp_message`: look the customer up (failure
is returned as-is), require a non-empty phone, call the gateway, and on
gateway success insert the outbound audit row (`message_type='text'`,
`direction='outbound'`, table default `status='sent'`).  The gateway result is
returned verbatim.  (`get_customer` never reports success without a row, so
the `none` payload branch is unreachable.) -/
def send_whatsapp_message (db : DB) (api : WhatsAppConfig) (net : NetOutcome)
    (customer_id : Nat) (message : String) (now : Int) : SendResult × DB :=
  let customer_result := get_customer db customer_id
  if customer_result.success = false then
    ({ success := false, data := none, error := customer_result.error }, db)
  else
    match customer_result.value with
    | none => ({ success := false, data := none, error := customer_result.error }, db)
    | some customer =>
      if customer.phone = "" then
        ({ success := false, error := some "Customer phone number not found" }, db)
      else
        let whatsapp_result := send_message api net customer.phone message
        if whatsapp_result.success then
          (whatsapp_result,
           { db with
               whatsapp_messages := db.whatsapp_messages ++
                 [{ id := db.next_message_id
                    customer_id := customer_id
                    message_type := "text"
                    content := message
                    direction := "outbound"
                    status := "sent"
                    created_at := now }]
               next_message_id := db.next_message_id + 1 })
        else (whatsapp_result, db)

/-- Rendering of Python `f"{x:.2f}"` on an exact rational: the value rounded
to cents and printed with two decimal places. -/
def fmt2 (q : Rat) : String :=
  let cents : Int := round (q * 100)
  let sign := if cents < 0 then "-" else ""
  let n := cents.natAbs
  let whole := n / 100
  let frac := n % 100
  let fracStr := if frac < 10 then "0" ++ toString frac else toString frac
  sign ++ toString whole ++ "." ++ fracStr

/-- The thank-you message of `send_payment_reminder` (balance settled). -/
def thank_you_message (name : String) : String :=
  "Olá " ++ name ++ "! Sua conta está em dia. Obrigado pela confiança! 😊"

/-- The reminder message quoting an explicitly supplied amount. -/
def overdue_amount_message (name : String) (amount : Rat) : String :=
  "Olá " ++ name ++ "! Lembrando que você tem um pagamento de R$ " ++ fmt2 amount ++
    " pendente. Por favor, regularize sua situação."

/-- The reminder message quoting the customer's current balance. -/
def overdue_balance_message (name : String) (balance : Rat) : String :=
  "Olá " ++ name ++ "! Seu saldo atual é de R$ " ++ fmt2 balance ++
    ". Por favor, regularize sua situação."

/-- Python truthiness of the optional `amount` argument: `None` and `0.0` are
falsy, every other float is truthy. -/
def py_truthy_amount : Option Rat → Bool
  | none => false
  | some a => decide (a ≠ 0)

/-- Message composition inside `send_payment_reminder`: thank-you when
`balance <= 0`; otherwise `if amount:` picks the message quoting the supplied
amount, else the one quoting the balance. -/
def compose_reminder (name : String) (balance : Rat) (amount : Option Rat) : String :=
  if balance ≤ 0 then thank_you_message name
  else if py_truthy_amount amount then overdue_amount_message name (amount.getD 0)
  else overdue_balance_message name balance

/-- `FinancialCRMSystem.send_payment_reminder`: look the customer up (failure
returned as-is), compose the reminder from name, balance and the optional
amount, and delegate to `send_whatsapp_message`. -/
def send_payment_reminder (db : DB) (api : WhatsAppConfig) (net : NetOutcome)
    (customer_id : Nat) (amount : Option Rat) (now : Int) : SendResult × DB :=
  let customer_result := get_customer db customer_id
  if customer_result.success = false then
    ({ success := false, data := none, error := customer_result.error }, db)
  else
    match customer_result.value with
    | none => ({ success := false, data := none, error := customer_result.error }, db)
    | some customer =>
      let message := compose_reminder customer.name customer.current_balance amount
      send_whatsapp_message db api net customer_id message now

/-- `FinancialCRMSystem.get_customer_messages`: the customer's WhatsApp
message history, `ORDER BY created_at DESC LIMIT ?`. -/
def get_customer_messages (db : DB) (customer_id : Nat) (limit : Nat := 50) :
    OpResult (List WhatsAppMessage) :=
  { success := true
    value := some
      ((sortByDesc (fun m => m.created_at)
        (db.whatsapp_messages.filter (fun m => decide (m.customer_id = customer_id)))).take limit) }

/-! ### Helper lemmas -/

/-- `List.find?` commutes with `map g` when `g` preserves the predicate. -/
theorem find_map_pred {α : Type} (g : α → α) (p : α → Bool) (hp : ∀ x, p (g x) = p x)
    (l : List α) (c : α) (h : l.find? p = some c) : (l.map g).find? p = some (g c) := by
  induction l with
  | nil => simp [List.find?] at h
  | cons a t ih =>
    by_cases ha : p a = true
    · rw [List.find?_cons_of_pos t ha] at h
      cases h
      simp only [List.map_cons]
      exact List.find?_cons_of_pos _ (by rw [hp]; exact ha)
    · rw [List.find?_cons_of_neg t ha] at h
      simp only [List.map_cons]
      rw [List.find?_cons_of_neg _ (by rw [hp]; exact ha)]
      exact ih h

/-- The `"add"` UPDATE form of `update_customer_balance`. -/
theorem update_balance_add_customers (db : DB) (cid : Nat) (amt : Rat) :
    ((update_customer_balance db cid amt "add").2).customers =
      db.customers.map (fun c =>
        if c.id = cid then { c with current_balance := c.current_balance + amt } else c) :=
  rfl

/-- The `"subtract"` UPDATE form of `update_customer_balance`. -/
theorem update_balance_subtract_customers (db : DB) (cid : Nat) (amt : Rat) :
    ((update_customer_balance db cid amt "subtract").2).customers =
      db.customers.map (fun c =>
        if c.id = cid then { c with current_balance := c.current_balance - amt } else c) :=
  rfl

/-! ### Example fixtures used by the closed witness theorems -/

/-- A concrete stored customer. -/
def exCustomer : Customer :=
  { id := 1, name := "Ana", phone := "5511999990000", email := "ana@example.com",
    whatsapp_id := "", created_at := 0, status := "active", credit_limit := 0,
    current_balance := 5 }

/-- A concrete database holding just `exCustomer`. -/
def exDB : DB :=
  { customers := [exCustomer], transactions := [], whatsapp_messages := [],
    next_customer_id := 2, next_transaction_id := 1, next_message_id := 1 }

/-- An empty database. -/
def emptyDB : DB :=
  { customers := [], transactions := [], whatsapp_messages := [],
    next_customer_id := 1, next_transaction_id := 1, next_message_id := 1 }

/-- A configured gateway environment. -/
def exApi : WhatsAppConfig :=
  { api_url := "https://graph.example.com", access_token := "token", phone_number_id := "42" }

/-- An unconfigured gateway environment (no URL, no token). -/
def noApi : WhatsAppConfig :=
  { api_url := "", access_token := "", phone_number_id := "" }

/-! ### Claims -/

/-- C1: for a transaction recorded on an existing customer, type `"payment"`
raises the customer's balance by exactly the amount, `"charge"` lowers it by
exactly the amount, and any other type (including `"refund"` and `"credit"`)
leaves the balance unchanged. -/
theorem C1_transaction_balance_effect (db : DB) (td : TransactionData) (now : Int)
    (cid : Nat) (c : Customer)
    (hcid : td.customer_id = some cid)
    (hc : db.customers.find? (fun x => decide (x.id = cid)) = some c) :
    ((create_transaction db td now).2).customers.find? (fun x => decide (x.id = cid)) =
      some { c with current_balance :=
        if td.transaction_type.getD "" = "payment" then
          c.current_balance + td.amount.getD 0
        else if td.transaction_type.getD "" = "charge" then
          c.current_balance - td.amount.getD 0
        else c.current_balance } := by
  have hid : c.id = cid := by have hb := List.find?_some hc; simpa using hb
  simp only [create_transaction, hcid]
  by_cases hpay : td.transaction_type.getD "" = "payment"
  · rw [if_pos hpay, if_pos hpay, update_balance_add_customers]
    have h2 := find_map_pred
      (fun x => if x.id = cid then
        { x with current_balance := x.current_balance + td.amount.getD 0 } else x)
      (fun x => decide (x.id = cid))
      (fun x => by by_cases hx : x.id = cid <;> simp [hx])
      db.customers c hc
    rw [h2]
    simp [hid]
  · by_cases hch : td.transaction_type.getD "" = "charge"
    · rw [if_neg hpay, if_pos hch, if_neg hpay, if_pos hch,
        update_balance_subtract_customers]
      have h2 := find_map_pred
        (fun x => if x.id = cid then
          { x with current_balance := x.current_balance - td.amount.getD 0 } else x)
        (fun x => decide (x.id = cid))
        (fun x => by by_cases hx : x.id = cid <;> simp [hx])
        db.customers c hc
      rw [h2]
      simp [hid]
    · rw [if_neg hpay, if_neg hch, if_neg hpay, if_neg hch]
      exact hc

/-- Witness for C1 at a concrete input: a payment of 3 on a stored balance of
5 yields balance 8. -/
theorem C1_transaction_balance_effect_witness :
    ((create_transaction exDB
        { customer_id := some 1, amount := some 3,
          transaction_type := some "payment", description := none } 0).2).customers.find?
      (fun x => decide (x.id = 1)) = some { exCustomer with current_balance := 8 } := by
  have h := C1_transaction_balance_effect exDB
    { customer_id := some 1, amount := some 3,
      transaction_type := some "payment", description := none } 0 1 exCustomer
    rfl (by decide)
  exact h.trans (by norm_num [exCustomer])

/-- C9: `update_customer_balance` with any operation other than `"add"` and
`"subtract"` overwrites the customer's balance with exactly the given amount. -/
theorem C9_other_operation_overwrites (db : DB) (cid : Nat) (amount : Rat)
    (operation : String) (c : Customer)
    (h1 : operation ≠ "add") (h2 : operation ≠ "subtract")
    (hc : db.customers.find? (fun x => decide (x.id = cid)) = some c) :
    ((update_customer_balance db cid amount operation).2).customers.find?
        (fun x => decide (x.id = cid)) = some { c with current_balance := amount } := by
  have hid : c.id = cid := by have hb := List.find?_some hc; simpa using hb
  simp only [update_customer_balance, if_neg h1, if_neg h2]
  have h3 := find_map_pred
    (fun x => if x.id = cid then { x with current_balance := amount } else x)
    (fun x => decide (x.id = cid))
    (fun x => by by_cases hx : x.id = cid <;> simp [hx])
    db.customers c hc
  rw [h3]
  simp [hid]

/-- Witness for C9 at a concrete input: operation `"multiply"` on a balance of
5 stores exactly 7. -/
theorem C9_other_operation_overwrites_witness :
    ((update_customer_balance exDB 1 7 "multiply").2).customers.find?
        (fun x => decide (x.id = 1)) = some { exCustomer with current_balance := 7 } := by
  have h := C9_other_operation_overwrites exDB 1 7 "multiply" exCustomer
    (by decide) (by decide) (by decide)
  exact h

/-- Python `or 0.0` over a SQL `SUM(amount)` equals the plain sum of the
matching amounts (empty sum is 0). -/
theorem pyOrZero_sqlSumAmount (rows : List Transaction) :
    pyOrZero (sqlSumAmount rows) = (rows.map (fun t => t.amount)).sum := by
  cases rows with
  | nil => rfl
  | cons a t =>
    show (if ((a :: t).map (fun t => t.amount)).sum = 0 then 0
          else ((a :: t).map (fun t => t.amount)).sum) = _
    by_cases h : ((a :: t).map (fun t => t.amount)).sum = 0
    · rw [if_pos h, h]
    · rw [if_neg h]

/-- C2: the financial summary reports, over the window
`created_at ≥ now − days`: the sum of payment amounts, the sum of charge
amounts, their difference as the net amount, the windowed transaction count,
and the unwindowed count of customers with status `"active"`. -/
theorem C2_financial_summary_window (db : DB) (now days : Int) :
    ∃ s : FinancialSummary,
      get_financial_summary db now days = { success := true, value := some s, error := none } ∧
      s.total_revenue = ((db.transactions.filter
        (fun t => decide (t.transaction_type = "payment" ∧ now - days ≤ t.created_at))).map
          (fun t => t.amount)).sum ∧
      s.total_charges = ((db.transactions.filter
        (fun t => decide (t.transaction_type = "charge" ∧ now - days ≤ t.created_at))).map
          (fun t => t.amount)).sum ∧
      s.net_amount = s.total_revenue - s.total_charges ∧
      s.transaction_count =
        (db.transactions.filter (fun t => decide (now - days ≤ t.created_at))).length ∧
      s.active_customers =
        (db.customers.filter (fun c => decide (c.status = "active"))).length ∧
      s.period_days = days := by
  have hfil : ∀ ty : String,
      db.transactions.filter
        (fun t => decide (t.transaction_type = ty) && decide (now - days ≤ t.created_at)) =
      db.transactions.filter
        (fun t => decide (t.transaction_type = ty ∧ now - days ≤ t.created_at)) :=
    fun ty => List.filter_congr (fun x _ => by simp)
  refine ⟨_, rfl, ?_, ?_, rfl, rfl, rfl, rfl⟩
  · show pyOrZero (sqlSumAmount (db.transactions.filter
      (fun t => decide (t.transaction_type = "payment") && decide (now - days ≤ t.created_at)))) = _
    rw [pyOrZero_sqlSumAmount, hfil]
  · show pyOrZero (sqlSumAmount (db.transactions.filter
      (fun t => decide (t.transaction_type = "charge") && decide (now - days ≤ t.created_at)))) = _
    rw [pyOrZero_sqlSumAmount, hfil]

/-- Case analysis of `get_customer`: either the row is found and returned, or
the lookup reports "Customer not found". -/
theorem get_customer_shape (db : DB) (cid : Nat) :
    (∃ c, db.customers.find? (fun x => decide (x.id = cid)) = some c ∧
      get_customer db cid = { success := true, value := some c, error := none }) ∨
    (db.customers.find? (fun x => decide (x.id = cid)) = none ∧
      get_customer db cid =
        { success := false, value := none, error := some "Customer not found" }) := by
  cases h : db.customers.find? (fun x => decide (x.id = cid)) with
  | none => exact Or.inr ⟨rfl, by unfold get_customer; rw [h]⟩
  | some c => exact Or.inl ⟨c, rfl, by unfold get_customer; rw [h]⟩

/-- Case analysis of `send_whatsapp_message`: its result dict and database
effect in each control-flow branch of the source. -/
theorem send_whatsapp_message_cases (db : DB) (api : WhatsAppConfig) (net : NetOutcome)
    (cid : Nat) (body : String) (now : Int) :
    (db.customers.find? (fun x => decide (x.id = cid)) = none ∧
      send_whatsapp_message db api net cid body now =
        ({ success := false, data := none, error := some "Customer not found" }, db)) ∨
    (∃ c, db.customers.find? (fun x => decide (x.id = cid)) = some c ∧
      ((c.phone = "" ∧ send_whatsapp_message db api net cid body now =
          ({ success := false, data := none,
             error := some "Customer phone number not found" }, db)) ∨
       (c.phone ≠ "" ∧ (send_message api net c.phone body).success = true ∧
          send_whatsapp_message db api net cid body now =
            (send_message api net c.phone body,
             { db with
                 whatsapp_messages := db.whatsapp_messages ++
                   [{ id := db.next_message_id, customer_id := cid, message_type := "text",
                      content := body, direction := "outbound", status := "sent",
                      created_at := now }]
                 next_message_id := db.next_message_id + 1 })) ∨
       (c.phone ≠ "" ∧ (send_message api net c.phone body).success = false ∧
          send_whatsapp_message db api net cid body now =
            (send_message api net c.phone body, db)))) := by
  rcases get_customer_shape db cid with ⟨c, hc, hgc⟩ | ⟨hc, hgc⟩
  · refine Or.inr ⟨c, hc, ?_⟩
    by_cases hp : c.phone = ""
    · refine Or.inl ⟨hp, ?_⟩
      unfold send_whatsapp_message
      rw [hgc]
      simp [hp]
    · cases hs : (send_message api net c.phone body).success
      · refine Or.inr (Or.inr ⟨hp, rfl, ?_⟩)
        unfold send_whatsapp_message
        rw [hgc]
        simp [hp, hs]
      · refine Or.inr (Or.inl ⟨hp, rfl, ?_⟩)
        unfold send_whatsapp_message
        rw [hgc]
        simp [hp, hs]
  · refine Or.inl ⟨hc, ?_⟩
    unfold send_whatsapp_message
    rw [hgc]
    simp

/-- C3: with the gateway endpoint URL or access credential unset,
`send_message` reports the configuration-missing failure whatever the network
oracle would answer (no call is attempted), and `send_whatsapp_message` in
that state leaves the message audit table untouched. -/
theorem C3_unconfigured_no_send (api : WhatsAppConfig)
    (hcfg : api.api_url = "" ∨ api.access_token = "")
    (net : NetOutcome) (dest body : String) (db : DB) (cid : Nat) (now : Int) :
    send_message api net dest body =
      { success := false, data := none, error := some "WhatsApp API not configured" } ∧
    ((send_whatsapp_message db api net cid body now).2).whatsapp_messages =
      db.whatsapp_messages := by
  have hsend : ∀ d : String, send_message api net d body =
      { success := false, data := none, error := some "WhatsApp API not configured" } := by
    intro d
    unfold send_message
    rw [if_pos hcfg]
  refine ⟨hsend dest, ?_⟩
  rcases send_whatsapp_message_cases db api net cid body now with
    ⟨-, heq⟩ | ⟨c, -, ⟨-, heq⟩ | ⟨-, hok, heq⟩ | ⟨-, -, heq⟩⟩
  · rw [heq]
  · rw [heq]
  · rw [hsend c.phone] at hok
    exact absurd hok (by simp)
  · rw [heq]

/-- Witness for C3 at a concrete input: empty URL and token, one stored
customer, and a network oracle that would answer successfully. -/
theorem C3_unconfigured_no_send_witness :
    (noApi.api_url = "" ∨ noApi.access_token = "") ∧
    (send_message noApi (.response "ok") "5511999990000" "hello" =
        { success := false, data := none, error := some "WhatsApp API not configured" } ∧
      ((send_whatsapp_message exDB noApi (.response "ok") 1 "hello" 0).2).whatsapp_messages =
        exDB.whatsapp_messages) :=
  ⟨Or.inl rfl,
   C3_unconfigured_no_send noApi (Or.inl rfl) (.response "ok") "5511999990000" "hello" exDB 1 0⟩

/-- C4: for an existing customer with a non-empty phone, when the gateway send
succeeds, `send_whatsapp_message` appends exactly one outbound text audit row
containing the sent body and returns the gateway result verbatim. -/
theorem C4_success_appends_audit_row (db : DB) (api : WhatsAppConfig) (net : NetOutcome)
    (cid : Nat) (c : Customer) (body : String) (now : Int)
    (hc : db.customers.find? (fun x => decide (x.id = cid)) = some c)
    (hphone : c.phone ≠ "")
    (hok : (send_message api net c.phone body).success = true) :
    (send_whatsapp_message db api net cid body now).1 = send_message api net c.phone body ∧
    ((send_whatsapp_message db api net cid body now).2).whatsapp_messages =
      db.whatsapp_messages ++
        [{ id := db.next_message_id, customer_id := cid, message_type := "text",
           content := body, direction := "outbound", status := "sent",
           created_at := now }] := by
  rcases send_whatsapp_message_cases db api net cid body now with
    ⟨hnone, -⟩ | ⟨c', hc', ⟨hp, -⟩ | ⟨-, -, heq⟩ | ⟨-, hfail, -⟩⟩
  · rw [hc] at hnone
    exact absurd hnone (by simp)
  · rw [hc] at hc'
    cases hc'
    exact absurd hp hphone
  · rw [hc] at hc'
    cases hc'
    rw [heq]
    exact ⟨rfl, rfl⟩
  · rw [hc] at hc'
    cases hc'
    rw [hok] at hfail
    exact absurd hfail (by simp)

/-- Witness for C4 at a concrete input: configured gateway, stored customer
with a phone, a successful network response. -/
theorem C4_success_appends_audit_row_witness :
    (send_whatsapp_message exDB exApi (.response "ok") 1 "hello" 9).1 =
      send_message exApi (.response "ok") exCustomer.phone "hello" ∧
    ((send_whatsapp_message exDB exApi (.response "ok") 1 "hello" 9).2).whatsapp_messages =
      exDB.whatsapp_messages ++
        [{ id := exDB.next_message_id, customer_id := 1, message_type := "text",
           content := "hello", direction := "outbound", status := "sent",
           created_at := 9 }] :=
  C4_success_appends_audit_row exDB exApi (.response "ok") 1 exCustomer "hello" 9
    (by decide) (by decide) (by decide)

/-- The thank-you message never coincides with the amount-quoting reminder
(the suffixes after the shared `"Olá " ++ name` prefix differ at index 2:
`'S'` vs `'L'`). -/
theorem thank_you_ne_overdue_amount (name : String) (a : Rat) :
    thank_you_message name ≠ overdue_amount_message name a := by
  intro h
  have h1 := congrArg String.data h
  simp only [thank_you_message, overdue_amount_message, String.data_append,
    List.append_assoc] at h1
  have h2 := List.append_cancel_left (List.append_cancel_left h1)
  have h3 := congrArg (fun l => l[2]?) h2
  simp only at h3
  rw [List.getElem?_append_left (by decide)] at h3
  exact absurd h3 (by decide)

/-- The thank-you message never coincides with the balance-quoting reminder
(the suffixes after the shared prefix differ at index 3: `'u'` vs `'e'`). -/
theorem thank_you_ne_overdue_balance (name : String) (b : Rat) :
    thank_you_message name ≠ overdue_balance_message name b := by
  intro h
  have h1 := congrArg String.data h
  simp only [thank_you_message, overdue_balance_message, String.data_append,
    List.append_assoc] at h1
  have h2 := List.append_cancel_left (List.append_cancel_left h1)
  have h3 := congrArg (fun l => l[3]?) h2
  simp only at h3
  rw [List.getElem?_append_left (by decide)] at h3
  exact absurd h3 (by decide)

/-- C5: for an existing customer, `send_payment_reminder` sends exactly the
composed reminder, and the composed reminder is the thank-you message if and
only if the current balance is ≤ 0 — for every optional amount argument. -/
theorem C5_thank_you_iff_nonpositive_balance (db : DB) (api : WhatsAppConfig)
    (net : NetOutcome) (cid : Nat) (c : Customer) (amount : Option Rat) (now : Int)
    (hc : db.customers.find? (fun x => decide (x.id = cid)) = some c) :
    send_payment_reminder db api net cid amount now =
      send_whatsapp_message db api net cid
        (compose_reminder c.name c.current_balance amount) now ∧
    (compose_reminder c.name c.current_balance amount = thank_you_message c.name ↔
      c.current_balance ≤ 0) := by
  have hgc : get_customer db cid = { success := true, value := some c, error := none } := by
    unfold get_customer; rw [hc]
  constructor
  · unfold send_payment_reminder
    rw [hgc]
    rfl
  · constructor
    · intro hmsg
      by_contra hbal
      unfold compose_reminder at hmsg
      rw [if_neg hbal] at hmsg
      by_cases ht : py_truthy_amount amount = true
      · rw [if_pos ht] at hmsg
        exact thank_you_ne_overdue_amount c.name _ hmsg.symm
      · rw [if_neg ht] at hmsg
        exact thank_you_ne_overdue_balance c.name _ hmsg.symm
    · intro hbal
      unfold compose_reminder
      rw [if_pos hbal]

/-- Witness for C5 at a concrete input: the stored customer has balance 5 > 0,
so the composed reminder is not the thank-you message. -/
theorem C5_thank_you_iff_nonpositive_balance_witness :
    (send_payment_reminder exDB exApi (.response "ok") 1 none 0 =
      send_whatsapp_message exDB exApi (.response "ok") 1
        (compose_reminder exCustomer.name exCustomer.current_balance none) 0) ∧
    (compose_reminder exCustomer.name exCustomer.current_balance none =
        thank_you_message exCustomer.name ↔ exCustomer.current_balance ≤ 0) :=
  C5_thank_you_iff_nonpositive_balance exDB exApi (.response "ok") 1 exCustomer none 0
    (by decide)

/-- Concrete rendering of `{5:.2f}`. -/
theorem fmt2_five : fmt2 5 = "5.00" := by
  have h : round ((5:ℚ) * 100) = 500 := by norm_num
  unfold fmt2
  rw [h]
  rfl

/-- Concrete rendering of `{0:.2f}`. -/
theorem fmt2_zero : fmt2 0 = "0.00" := by
  have h : round ((0:ℚ) * 100) = 0 := by norm_num
  unfold fmt2
  rw [h]
  rfl

/-- C6 counterexample: the stored customer has balance 5 > 0 and the caller
explicitly supplies `amount = 0.0` (a present argument, but Python-falsy); the
reminder actually sent quotes the current balance, not the supplied amount, so
"whenever an amount argument was supplied" fails as stated. -/
theorem C6_supplied_amount_counterexample :
    0 < exCustomer.current_balance ∧
    ((send_payment_reminder exDB exApi (.response "ok") 1 (some 0) 0).2).whatsapp_messages.map
        (fun m => m.content) = [overdue_balance_message "Ana" 5] ∧
    overdue_balance_message "Ana" 5 ≠ overdue_amount_message "Ana" 0 := by
  refine ⟨by decide, rfl, ?_⟩
  intro h
  rw [overdue_balance_message, overdue_amount_message, fmt2_five, fmt2_zero] at h
  exact absurd h (by decide)

/-- C6 (amended): for an existing customer with positive balance, the
reminder quotes the supplied amount whenever the amount argument is present
and nonzero (Python-truthy); when the argument is absent or zero, it quotes
the current balance instead. -/
theorem C6_amount_quoting_amended (db : DB) (api : WhatsAppConfig) (net : NetOutcome)
    (cid : Nat) (c : Customer) (amount : Option Rat) (now : Int)
    (hc : db.customers.find? (fun x => decide (x.id = cid)) = some c)
    (hbal : 0 < c.current_balance) :
    send_payment_reminder db api net cid amount now =
      send_whatsapp_message db api net cid
        (match amount with
         | some a =>
           if a ≠ 0 then overdue_amount_message c.name a
           else overdue_balance_message c.name c.current_balance
         | none => overdue_balance_message c.name c.current_balance) now := by
  have hgc : get_customer db cid = { success := true, value := some c, error := none } := by
    unfold get_customer; rw [hc]
  have hmsg : compose_reminder c.name c.current_balance amount =
      (match amount with
       | some a =>
         if a ≠ 0 then overdue_amount_message c.name a
         else overdue_balance_message c.name c.current_balance
       | none => overdue_balance_message c.name c.current_balance) := by
    unfold compose_reminder
    rw [if_neg (not_le.mpr hbal)]
    cases amount with
    | none => rfl
    | some a =>
      by_cases ha : a = 0
      · simp [py_truthy_amount, ha]
      · simp [py_truthy_amount, ha]
  unfold send_payment_reminder
  rw [hgc]
  show send_whatsapp_message db api net cid
    (compose_reminder c.name c.current_balance amount) now = _
  rw [hmsg]

/-- Witness for the amended C6 at a concrete input: balance 5 > 0 and a
supplied nonzero amount 2 — the amount-quoting message is sent. -/
theorem C6_amount_quoting_amended_witness :
    send_payment_reminder exDB exApi (.response "ok") 1 (some 2) 0 =
      send_whatsapp_message exDB exApi (.response "ok") 1
        (overdue_amount_message exCustomer.name 2) 0 := by
  have h := C6_amount_quoting_amended exDB exApi (.response "ok") 1 exCustomer (some 2) 0
    (by decide) (by decide)
  rw [h]
  norm_num

/-- Sample registration input (the spec's worked example). -/
def exData : CustomerData :=
  { name := some "Maria Santos", phone := some "5511888888888",
    email := some "maria@example.com", whatsapp_id := none,
    credit_limit := some 2000, status := none, current_balance := none,
    created_at := none }

/-- C8: registering a customer whose phone is unique among stored customers
succeeds with a fresh identity, and reading that identity back returns the
same name, phone and email, with status `"active"` and zero balance. -/
theorem C8_register_then_get (db : DB) (d : CustomerData) (now : Int)
    (hphone : ∀ c ∈ db.customers, c.phone ≠ d.phone.getD "")
    (hfresh : ∀ c ∈ db.customers, c.id ≠ db.next_customer_id) :
    ∃ cid db2,
      create_customer db d now =
        ({ success := true, value := some cid, error := none }, db2) ∧
      get_customer db2 cid =
        { success := true
          value := some
            { id := cid, name := d.name.getD "", phone := d.phone.getD "",
              email := d.email.getD "", whatsapp_id := d.whatsapp_id.getD "",
              created_at := now, status := "active",
              credit_limit := d.credit_limit.getD 0, current_balance := 0 }
          error := none } := by
  have hany : db.customers.any (fun c => decide (c.phone = d.phone.getD "")) = false := by
    rw [List.any_eq_false]
    intro c hcin
    simpa using hphone c hcin
  refine ⟨db.next_customer_id,
    { db with
        customers := db.customers ++
          [{ id := db.next_customer_id, name := d.name.getD "", phone := d.phone.getD "",
             email := d.email.getD "", whatsapp_id := d.whatsapp_id.getD "",
             created_at := now, status := "active",
             credit_limit := d.credit_limit.getD 0, current_balance := 0 }]
        next_customer_id := db.next_customer_id + 1 }, ?_, ?_⟩
  · simp only [create_customer]
    rw [hany]
    rfl
  · unfold get_customer
    simp only
    rw [List.find?_append]
    have hnone : db.customers.find?
        (fun x => decide (x.id = db.next_customer_id)) = none :=
      List.find?_eq_none.mpr (fun x hx => by simpa using hfresh x hx)
    rw [hnone]
    rw [List.find?_cons_of_pos _ (by simp)]
    rfl

/-- Witness for C8 at a concrete input: registering the spec's example
customer in the empty database. -/
theorem C8_register_then_get_witness :
    ∃ cid db2,
      create_customer emptyDB exData 0 =
        ({ success := true, value := some cid, error := none }, db2) ∧
      get_customer db2 cid =
        { success := true
          value := some
            { id := cid, name := exData.name.getD "", phone := exData.phone.getD "",
              email := exData.email.getD "", whatsapp_id := exData.whatsapp_id.getD "",
              created_at := 0, status := "active",
              credit_limit := exData.credit_limit.getD 0, current_balance := 0 }
          error := none } :=
  C8_register_then_get emptyDB exData 0 (by simp [emptyDB]) (by simp [emptyDB])

/-- C10: `create_customer` ignores caller-supplied `status`,
`current_balance` and `created_at` entries — the call behaves identically
with them present — and every successfully stored row has status `"active"`,
zero balance and the server-assigned creation timestamp. -/
theorem C10_create_customer_ignores_protected_fields (db : DB) (d : CustomerData)
    (now : Int) (s : Option String) (b : Option Rat) (t : Option Int) :
    create_customer db { d with status := s, current_balance := b, created_at := t } now =
      create_customer db d now ∧
    (∀ r db2, create_customer db d now = (r, db2) → r.success = true →
      ∃ c, db2.customers = db.customers ++ [c] ∧
        c.status = "active" ∧ c.current_balance = 0 ∧ c.created_at = now) := by
  constructor
  · rfl
  · intro r db2 heq hs
    simp only [create_customer] at heq
    by_cases hany : db.customers.any (fun c => decide (c.phone = d.phone.getD "")) = true
    · rw [if_pos hany, Prod.mk.injEq] at heq
      rw [← heq.1] at hs
      simp at hs
    · rw [if_neg hany, Prod.mk.injEq] at heq
      obtain ⟨h1, h2⟩ := heq
      subst h2
      exact ⟨_, rfl, rfl, rfl, rfl⟩

/-- Witness for C10 at a concrete input: junk `status`, `current_balance` and
`created_at` entries in the input dict leave the call unchanged, and the
stored row carries the server-side defaults. -/
theorem C10_create_customer_ignores_protected_fields_witness :
    (create_customer emptyDB
        { exData with
            status := some "blocked"
            current_balance := some 99
            created_at := some 123 } 0 =
      create_customer emptyDB exData 0) ∧
    ∃ c, ((create_customer emptyDB exData 0).2).customers = emptyDB.customers ++ [c] ∧
      c.status = "active" ∧ c.current_balance = 0 ∧ c.created_at = 0 := by
  have h := C10_create_customer_ignores_protected_fields emptyDB exData 0
    (some "blocked") (some 99) (some 123)
  exact ⟨h.1, h.2 (create_customer emptyDB exData 0).1
    (create_customer emptyDB exData 0).2 rfl (by decide)⟩

/-- Uniform result shape of the Domain Service: success, or failure together
with an error message. -/
def uniformShape (success : Bool) (error : Option String) : Prop :=
  success = true ∨ (success = false ∧ error ≠ none)

/-- The gateway's own result is in the uniform shape. -/
theorem uniform_send_message (api : WhatsAppConfig) (net : NetOutcome)
    (dest body : String) :
    uniformShape (send_message api net dest body).success
      (send_message api net dest body).error := by
  unfold send_message uniformShape
  by_cases h : api.api_url = "" ∨ api.access_token = ""
  · rw [if_pos h]
    exact Or.inr ⟨rfl, by simp⟩
  · rw [if_neg h]
    cases net with
    | response body2 => exact Or.inl rfl
    | exn e => exact Or.inr ⟨rfl, by simp⟩

/-- `send_whatsapp_message` returns a result in the uniform shape. -/
theorem uniform_send_whatsapp (db : DB) (api : WhatsAppConfig) (net : NetOutcome)
    (cid : Nat) (body : String) (now : Int) :
    uniformShape ((send_whatsapp_message db api net cid body now).1).success
      ((send_whatsapp_message db api net cid body now).1).error := by
  rcases send_whatsapp_message_cases db api net cid body now with
    ⟨-, heq⟩ | ⟨c, -, ⟨-, heq⟩ | ⟨-, hok, heq⟩ | ⟨-, hfail, heq⟩⟩
  · rw [heq]; exact Or.inr ⟨rfl, by simp⟩
  · rw [heq]; exact Or.inr ⟨rfl, by simp⟩
  · rw [heq]; exact Or.inl hok
  · rw [heq]; exact uniform_send_message api net c.phone body

/-- `send_payment_reminder` returns a result in the uniform shape. -/
theorem uniform_send_reminder (db : DB) (api : WhatsAppConfig) (net : NetOutcome)
    (cid : Nat) (amount : Option Rat) (now : Int) :
    uniformShape ((send_payment_reminder db api net cid amount now).1).success
      ((send_payment_reminder db api net cid amount now).1).error := by
  rcases get_customer_shape db cid with ⟨c, -, hgc⟩ | ⟨-, hgc⟩
  · unfold send_payment_reminder
    rw [hgc]
    show uniformShape
      ((send_whatsapp_message db api net cid
        (compose_reminder c.name c.current_balance amount) now).1).success
      ((send_whatsapp_message db api net cid
        (compose_reminder c.name c.current_balance amount) now).1).error
    exact uniform_send_whatsapp db api net cid
      (compose_reminder c.name c.current_balance amount) now
  · unfold send_payment_reminder
    rw [hgc]
    exact Or.inr ⟨rfl, by simp⟩

/-- C7: every Domain Service operation, on every input and state, returns a
result dict with a boolean success flag that carries an error message
whenever it reports failure; the operations are total functions into their
result types, so no exception escapes the service boundary. -/
theorem C7_uniform_result_shape (db : DB) (cd : CustomerData) (td : TransactionData)
    (api : WhatsAppConfig) (net : NetOutcome) (cid : Nat) (st : Option String)
    (amt : Rat) (op : String) (lim : Nat) (days now : Int) (body : String)
    (amount : Option Rat) :
    uniformShape ((create_customer db cd now).1).success
      ((create_customer db cd now).1).error ∧
    uniformShape (get_customer db cid).success (get_customer db cid).error ∧
    uniformShape (get_customers db st).success (get_customers db st).error ∧
    uniformShape ((update_customer_balance db cid amt op).1).success
      ((update_customer_balance db cid amt op).1).error ∧
    uniformShape ((create_transaction db td now).1).success
      ((create_transaction db td now).1).error ∧
    uniformShape (get_customer_transactions db cid lim).success
      (get_customer_transactions db cid lim).error ∧
    uniformShape (get_financial_summary db now days).success
      (get_financial_summary db now days).error ∧
    uniformShape ((send_whatsapp_message db api net cid body now).1).success
      ((send_whatsapp_message db api net cid body now).1).error ∧
    uniformShape ((send_payment_reminder db api net cid amount now).1).success
      ((send_payment_reminder db api net cid amount now).1).error ∧
    uniformShape (get_customer_messages db cid lim).success
      (get_customer_messages db cid lim).error := by
  refine ⟨?_, ?_, Or.inl rfl, Or.inl rfl, ?_, Or.inl rfl, Or.inl rfl,
    uniform_send_whatsapp db api net cid body now,
    uniform_send_reminder db api net cid amount now, Or.inl rfl⟩
  · by_cases hany :
      db.customers.any (fun c => decide (c.phone = cd.phone.getD "")) = true
    · simp only [create_customer]
      rw [if_pos hany]
      exact Or.inr ⟨rfl, by simp⟩
    · simp only [create_customer]
      rw [if_neg hany]
      exact Or.inl rfl
  · rcases get_customer_shape db cid with ⟨c, -, hgc⟩ | ⟨-, hgc⟩
    · rw [hgc]; exact Or.inl rfl
    · rw [hgc]; exact Or.inr ⟨rfl, by simp⟩
  · cases htd : td.customer_id with
    | none =>
      simp only [create_transaction, htd]
      exact Or.inr ⟨rfl, by simp⟩
    | some cid2 =>
      simp only [create_transaction, htd]
      exact Or.inl rfl

end CRM
